import Mathlib

/-
Verification of the miniGU Python binding layer.

The definitions below are shallow embeddings of the functions in
`minigu/python/minigu.py` (the current binding module) and, where noted, of the
older variant `python/minigu.py`.  Python strings are modelled as Lean
`String`s (lists of characters); Python exceptions are modelled by the
`PyError` enumeration together with `Option`/`Except` results; the native
engine (`PyMiniGU`, reached over the Rust FFI) is modelled as an oracle
`NativeBehavior` saying which native calls succeed, and every native call
performed by the binding layer is recorded in a trace of `NEvent`s.
-/

set_option autoImplicit false

namespace MiniGu

/-! ## String utilities (Python `in`, `str.lower`, substring search) -/

/-- Substring containment on character lists: Python's `needle in hay`.
The empty needle is contained in everything, as in Python. -/
def containsSub (needle : List Char) (hay : List Char) : Bool :=
  match hay with
  | [] => needle.isEmpty
  | c :: rest => needle.isPrefixOf (c :: rest) || containsSub needle rest

/-- Python's `needle in hay` on strings. -/
def pyIn (needle hay : String) : Bool :=
  containsSub needle.data hay.data

/-- Python's `str.lower`, restricted to ASCII case folding.  All keywords the
classifier searches for are ASCII, so only ASCII folding is observable here. -/
def lowerStr (s : String) : String :=
  ⟨s.data.map Char.toLower⟩

/-! ## Python scalar values

`PyValue` models the scalar property values that records may carry; `pyStr`
models Python's `str()` on them (used by f-string interpolation). -/

inductive PyValue where
  | str (s : String)
  | int (n : Int)
  | bool (b : Bool)
  deriving DecidableEq

/-- Python `str(v)` for the modelled scalar values. -/
def pyStr : PyValue → String
  | PyValue.str s => s
  | PyValue.int n => toString n
  | PyValue.bool b => if b then "True" else "False"

/-- A record: an insertion-ordered mapping from property names to scalar
values (Python `dict`), modelled as an association list with distinct keys. -/
abbrev Record := List (String × PyValue)

/-- Python `dict.get(k)`: the value at the first matching key. -/
def lookupKey (k : String) (r : Record) : Option PyValue :=
  (r.find? (fun kv => kv.1 == k)).map (·.2)

/-! ## Sanitizers (`_sanitize_graph_name`, `_sanitize_file_path`) -/

/-- Python's `str.isalnum()` on a single character.  Exact for all code points
up to U+00FF (ASCII letters and digits; the Latin-1 letters and numeric signs
ª ² ³ µ ¹ º ¼ ½ ¾ and À–ÿ except × and ÷).  Code points above U+00FF, which
Python also classifies by Unicode category, are outside the evaluated domain
of this development and are mapped to `false`. -/
def pyIsAlnum (c : Char) : Bool :=
  let v := c.toNat
  if v < 128 then c.isAlpha || c.isDigit
  else if v ≤ 255 then
    (v == 0xAA || v == 0xB2 || v == 0xB3 || v == 0xB5 || v == 0xB9 || v == 0xBA ||
     v == 0xBC || v == 0xBD || v == 0xBE) ||
    (0xC0 ≤ v && v ≠ 0xD7 && v ≠ 0xF7)
  else false

/-- `_sanitize_graph_name` (minigu/python/minigu.py:44):
`''.join(c for c in name if c.isalnum() or c == '_')`. -/
def sanitize_graph_name (name : String) : String :=
  ⟨name.data.filter (fun c => pyIsAlnum c || c == '_')⟩

/-- The identifier filter in the spec's words: keep only `[A-Za-z0-9_]`. -/
def keep_ascii_ident (s : String) : String :=
  ⟨s.data.filter (fun c => c.isAlpha || c.isDigit || c == '_')⟩

/-- The five characters `_sanitize_file_path` strips. -/
def dangerChars : List Char := ['\'', '"', ';', '\n', '\r']

/-- The five chained single-character `str.replace(c, '')` calls of
`_sanitize_file_path` (minigu/python/minigu.py:69). -/
def stripDangerous (l : List Char) : List Char :=
  ((((l.filter (· ≠ '\'')).filter (· ≠ '"')).filter (· ≠ ';')).filter
      (· ≠ '\n')).filter (· ≠ '\r')

/-- Python's `str.replace('..', '')`: one left-to-right pass removing each
non-overlapping occurrence of two consecutive dots. -/
def removeDotDot : List Char → List Char
  | [] => []
  | [c] => [c]
  | c :: c2 :: rest2 =>
    if c = '.' && c2 = '.' then removeDotDot rest2
    else c :: removeDotDot (c2 :: rest2)

/-- Does the list contain two consecutive dots (the substring `..`)? -/
def hasDotDot : List Char → Bool
  | [] => false
  | [_] => false
  | c :: c2 :: rest2 => (c = '.' && c2 = '.') || hasDotDot (c2 :: rest2)

/-- `_sanitize_file_path` (minigu/python/minigu.py:58): strip `'` `"` `;`
newline and carriage return, then remove occurrences of `..`. -/
def sanitize_file_path (path : String) : String :=
  ⟨removeDotDot (stripDangerous path.data)⟩

/-- The path sanitizer as the spec words it: first delete every occurrence of
the five dangerous characters, then remove occurrences of the two-character
sequence `..` in a single left-to-right pass. -/
def sanitize_file_path_spec (path : String) : String :=
  ⟨removeDotDot (path.data.filter
      (fun c => !(c = '\'' || c = '"' || c = ';' || c = '\n' || c = '\r')))⟩

/-! ## Error taxonomy and classifier (`_handle_exception`) -/

/-- The Python exception classes of the binding layer, plus `runtimeError`
(Python's builtin `RuntimeError`, raised when the Rust bindings are missing)
and `nativeError` (a raw exception escaping from a native call that the layer
does not wrap, as in `close`). `notImplementedError` stands for the bare
`MiniGUError("Requested feature is not yet implemented")`. -/
inductive PyError where
  | connectionError
  | querySyntaxError
  | queryExecutionError
  | queryTimeoutError
  | transactionError
  | notImplementedError
  | dataError
  | graphError
  | runtimeError
  | nativeError
  deriving DecidableEq

/-- `_handle_exception` (minigu/python/minigu.py:75) as a total classifier
from the native failure message to the raised error.

The function's first block consults the Rust helpers
`is_transaction_error` / `is_not_implemented_error`, but any error it raises
inside its own `try` is swallowed by the block's `except Exception: pass`, so
control always falls through to the string matching below; the block is
therefore not part of the observable classification. -/
def handle_exception (msg : String) : PyError :=
  let m := lowerStr msg
  if (pyIn "syntax" m && pyIn "error" m) || pyIn "unexpected" m ||
      (pyIn "invalid" m && pyIn "syntax" m) then
    PyError.querySyntaxError
  else if pyIn "timeout" m then
    PyError.queryTimeoutError
  else if pyIn "transaction" m || pyIn "txn" m || pyIn "commit" m ||
      pyIn "rollback" m then
    PyError.transactionError
  else if pyIn "not implemented" m || pyIn "not yet implemented" m then
    PyError.notImplementedError
  else
    PyError.queryExecutionError

/-- The classifier as the amended claim words it: first-match-wins on the
lowercased message, where rule 1 fires on ("syntax" and "error"), or
"unexpected", or ("invalid" and "syntax"); then "timeout"; then the
transaction keywords; then the not-implemented phrases; otherwise Execution. -/
def classify_amended (msg : String) : PyError :=
  let m := lowerStr msg
  if (pyIn "syntax" m && pyIn "error" m) || pyIn "unexpected" m ||
      (pyIn "invalid" m && pyIn "syntax" m) then
    PyError.querySyntaxError
  else if pyIn "timeout" m then
    PyError.queryTimeoutError
  else if pyIn "transaction" m || pyIn "txn" m || pyIn "commit" m ||
      pyIn "rollback" m then
    PyError.transactionError
  else if pyIn "not implemented" m || pyIn "not yet implemented" m then
    PyError.notImplementedError
  else
    PyError.queryExecutionError

/-! ## The legacy statement builder (`python/minigu.py`)

`_format_insert_data` (python/minigu.py:363) is the only implementation of
the record-to-statement builder present in the repository; the tests that
exercise the builder expect the `INSERT :<label> ...` form instead. -/

/-- `_format_insert_data` (python/minigu.py:363): for each record take
`label` (default `"Node"`), render every other entry as `k: 'str(v)'`
(every value single-quoted via the f-string `f"{k}: '{v}'"`), wrap as
`(<label> {props})`, and join the records with `", "`. -/
def format_insert_data (data : List Record) : String :=
  String.intercalate ", " (data.map (fun item =>
    let label := match lookupKey "label" item with
      | some v => pyStr v
      | none => "Node"
    let props := String.intercalate ", "
      ((item.filter (fun kv => kv.1 ≠ "label")).map
        (fun kv => kv.1 ++ ": '" ++ pyStr kv.2 ++ "'"))
    "(" ++ label ++ " \x7b" ++ props ++ "\x7d)"))

/-- The single-record input of the claim:
`[{label: "Person", name: "Alice", age: 30}]`. -/
def c1_input : List Record :=
  [[("label", PyValue.str "Person"), ("name", PyValue.str "Alice"),
    ("age", PyValue.int 30)]]

/-! ## Connection lifecycle model (`_BaseMiniGU`, `MiniGU`, `AsyncMiniGU`)

The native engine is an oracle (`NativeBehavior`) deciding which native calls
succeed; each native call the binding layer performs is appended to a trace.
Native instances are numbered by allocation order. -/

/-- The raw result dictionary a native `execute` returns.  The binding layer
reads the keys `schema`, `data` and `metrics` with `dict.get(key, default)`,
so each is optional.  Column descriptors are (name, type) pairs and metric
values are scalars. -/
structure QDict where
  schema : Option (List (String × String))
  data : Option (List (List PyValue))
  metrics : Option (List (String × PyValue))
  deriving DecidableEq

/-- Oracle for the native engine (`PyMiniGU` reached over the Rust FFI):
`hasRust` is the module-level `HAS_RUST_BINDINGS and PyMiniGU` condition;
`allocOk k` says whether the `k`-th `PyMiniGU()` allocation succeeds;
`initOk i` whether `init()` on instance `i` succeeds; `closeOk i` whether the
native `close()` on instance `i` returns normally; `execRes i q` the result
or free-text failure message of `execute(q)` on instance `i`; and the
remaining fields whether `load_from_file` / `load_data` / `save_to_file`
succeed. -/
structure NativeBehavior where
  hasRust : Bool
  allocOk : Nat → Bool
  initOk : Nat → Bool
  closeOk : Nat → Bool
  execRes : Nat → String → Except String QDict
  loadFileOk : Nat → String → Bool
  loadDataOk : Nat → Bool
  saveOk : Nat → String → Bool

/-- One native call performed by the binding layer.  The source never passes
`thread_count`, `cache_size` or `enable_logging` to the native instance, so
no event carries them. -/
inductive NEvent where
  | allocCall (id : Nat)
  | allocFail (id : Nat)
  | initCall (id : Nat)
  | closeCall (id : Nat)
  | execCall (id : Nat) (q : String)
  | loadFileCall (id : Nat) (p : String)
  | loadDataCall (id : Nat)
  | saveCall (id : Nat) (p : String)
  deriving DecidableEq

/-- The world outside one handle: the id of the next native instance and the
trace of native calls made so far. -/
structure World where
  nextId : Nat
  trace : List NEvent
  deriving DecidableEq

/-- The attributes `_BaseMiniGU.__init__` stores on a handle:
`self._rust_instance`, `self.is_connected`, `self.db_path`,
`self.thread_count`, `self.cache_size`, `self.enable_logging`. -/
structure HandleState where
  rust_instance : Option Nat
  is_connected : Bool
  db_path : Option String
  thread_count : Nat
  cache_size : Nat
  enable_logging : Bool
  deriving DecidableEq

/-- `_BaseMiniGU.__init__`: a fresh handle, not connected, no native
instance. -/
def mkHandle (db_path : Option String) (thread_count cache_size : Nat)
    (enable_logging : Bool) : HandleState :=
  ⟨none, false, db_path, thread_count, cache_size, enable_logging⟩

/-- `_BaseMiniGU._connect` (minigu/python/minigu.py:358): if not connected,
allocate `PyMiniGU()` (the assignment to `self._rust_instance` happens before
`init()` is called, so a failing `init()` leaves the fresh instance stored),
call `init()`, and mark connected; any failure is re-raised as a Connection
error. -/
def py_connect (nb : NativeBehavior) (w : World) (h : HandleState) :
    World × HandleState × Option PyError :=
  if h.is_connected then (w, h, none)
  else if nb.hasRust then
    if nb.allocOk w.nextId then
      let id := w.nextId
      let w2 : World :=
        { nextId := id + 1,
          trace := w.trace ++ [NEvent.allocCall id, NEvent.initCall id] }
      let h1 : HandleState := { h with rust_instance := some id }
      if nb.initOk id then (w2, { h1 with is_connected := true }, none)
      else (w2, h1, some PyError.connectionError)
    else
      ({ w with trace := w.trace ++ [NEvent.allocFail w.nextId] }, h,
        some PyError.connectionError)
  else (w, h, some PyError.connectionError)

/-- `_BaseMiniGU._ensure_connected` (minigu/python/minigu.py:353): connect if
not already connected. -/
def ensure_connected (nb : NativeBehavior) (w : World) (h : HandleState) :
    World × HandleState × Option PyError :=
  if h.is_connected then (w, h, none) else py_connect nb w h

/-- `_BaseMiniGU.close` (minigu/python/minigu.py:373): if a native instance
reference is present (connected or not), call its native `close()` — without
any try/except, so a native failure propagates raw and skips the
`self.is_connected = False` assignment; the instance reference itself is
never cleared. -/
def py_close (nb : NativeBehavior) (w : World) (h : HandleState) :
    World × HandleState × Option PyError :=
  match h.rust_instance with
  | some id =>
    let w1 : World := { w with trace := w.trace ++ [NEvent.closeCall id] }
    if nb.closeOk id then (w1, { h with is_connected := false }, none)
    else (w1, h, some PyError.nativeError)
  | none => (w, { h with is_connected := false }, none)

/-- `AsyncMiniGU.close` (minigu/python/minigu.py:798): same body as the
blocking `close`, merely awaited. -/
def async_close (nb : NativeBehavior) (w : World) (h : HandleState) :
    World × HandleState × Option PyError :=
  match h.rust_instance with
  | some id =>
    let w1 : World := { w with trace := w.trace ++ [NEvent.closeCall id] }
    if nb.closeOk id then (w1, { h with is_connected := false }, none)
    else (w1, h, some PyError.nativeError)
  | none => (w, { h with is_connected := false }, none)

/-- `_BaseMiniGU._execute_internal` (minigu/python/minigu.py:416): ensure
connected, run the native `execute`, and classify any native failure through
`_handle_exception`. -/
def execute_internal (nb : NativeBehavior) (w : World) (h : HandleState)
    (q : String) : World × HandleState × Except PyError QDict :=
  match ensure_connected nb w h with
  | (w1, h1, some e) => (w1, h1, Except.error e)
  | (w1, h1, none) =>
    if nb.hasRust then
      match h1.rust_instance with
      | some id =>
        let w2 : World := { w1 with trace := w1.trace ++ [NEvent.execCall id q] }
        match nb.execRes id q with
        | Except.ok d => (w2, h1, Except.ok d)
        | Except.error msg => (w2, h1, Except.error (handle_exception msg))
      | none => (w1, h1, Except.error PyError.runtimeError)
    else (w1, h1, Except.error PyError.runtimeError)

/-- The `QueryResult` the facades hand back: schema, data, metrics. -/
structure QueryResult where
  schema : List (String × String)
  data : List (List PyValue)
  metrics : List (String × PyValue)
  deriving DecidableEq

/-- `MiniGU.execute` (minigu/python/minigu.py:566): run `_execute_internal`
and wrap the dictionary, defaulting each missing key. -/
def minigu_execute (nb : NativeBehavior) (w : World) (h : HandleState)
    (q : String) : World × HandleState × Except PyError QueryResult :=
  match execute_internal nb w h q with
  | (w1, h1, Except.ok d) =>
    (w1, h1, Except.ok ⟨d.schema.getD [], d.data.getD [], d.metrics.getD []⟩)
  | (w1, h1, Except.error e) => (w1, h1, Except.error e)

/-- `AsyncMiniGU.execute` (minigu/python/minigu.py:811): same body as the
blocking `execute`, merely awaited; it calls the shared `_execute_internal`
synchronously. -/
def async_minigu_execute (nb : NativeBehavior) (w : World) (h : HandleState)
    (q : String) : World × HandleState × Except PyError QueryResult :=
  match execute_internal nb w h q with
  | (w1, h1, Except.ok d) =>
    (w1, h1, Except.ok ⟨d.schema.getD [], d.data.getD [], d.metrics.getD []⟩)
  | (w1, h1, Except.error e) => (w1, h1, Except.error e)

/-- `_BaseMiniGU._create_graph_internal` (minigu/python/minigu.py:444):
ensure connected (outside the try, so a Connection error propagates),
sanitize the name (empty result is a Graph error), run
`CALL create_test_graph('<name>')`, and wrap any failure as a Graph error. -/
def create_graph_internal (nb : NativeBehavior) (w : World) (h : HandleState)
    (name : String) : World × HandleState × Option PyError :=
  match ensure_connected nb w h with
  | (w1, h1, some e) => (w1, h1, some e)
  | (w1, h1, none) =>
    if nb.hasRust then
      match h1.rust_instance with
      | some _ =>
        let s := sanitize_graph_name name
        if s = "" then (w1, h1, some PyError.graphError)
        else
          match execute_internal nb w1 h1 ("CALL create_test_graph('" ++ s ++ "')") with
          | (w2, h2, Except.ok _) => (w2, h2, none)
          | (w2, h2, Except.error _) => (w2, h2, some PyError.graphError)
      | none => (w1, h1, some PyError.runtimeError)
    else (w1, h1, some PyError.runtimeError)

/-- `MiniGU.create_graph` (minigu/python/minigu.py:594): call the internal
helper inside `try`, returning `True` on success and `False` on any
exception. -/
def create_graph (nb : NativeBehavior) (w : World) (h : HandleState)
    (name : String) : World × HandleState × Except PyError Bool :=
  match create_graph_internal nb w h name with
  | (w1, h1, none) => (w1, h1, Except.ok true)
  | (w1, h1, some _) => (w1, h1, Except.ok false)

/-- The argument of `MiniGU.load`: a list of records or a file path. -/
inductive LoadInput where
  | records (rs : List Record)
  | filePath (p : String)

/-- `MiniGU.load` (minigu/python/minigu.py:622): ensure connected (outside
the try), then inside `try`: sanitize a path argument (an empty result is a
Data error), call the native loader, and return `True`; any exception inside
the `try` yields `False`. -/
def py_load (nb : NativeBehavior) (w : World) (h : HandleState)
    (inp : LoadInput) : World × HandleState × Except PyError Bool :=
  match ensure_connected nb w h with
  | (w1, h1, some e) => (w1, h1, Except.error e)
  | (w1, h1, none) =>
    if nb.hasRust then
      match h1.rust_instance with
      | some id =>
        match inp with
        | LoadInput.filePath p =>
          let sp := sanitize_file_path p
          if sp = "" then (w1, h1, Except.ok false)
          else
            let w2 : World :=
              { w1 with trace := w1.trace ++ [NEvent.loadFileCall id sp] }
            if nb.loadFileOk id sp then (w2, h1, Except.ok true)
            else (w2, h1, Except.ok false)
        | LoadInput.records _ =>
          let w2 : World :=
            { w1 with trace := w1.trace ++ [NEvent.loadDataCall id] }
          if nb.loadDataOk id then (w2, h1, Except.ok true)
          else (w2, h1, Except.ok false)
      | none => (w1, h1, Except.error PyError.runtimeError)
    else (w1, h1, Except.error PyError.runtimeError)

/-- `MiniGU.save` (minigu/python/minigu.py:665): ensure connected (outside
the try), then inside `try`: sanitize the path (empty result is a Data
error), call the native `save_to_file`, and return `True`; any exception
inside the `try` yields `False`. -/
def py_save (nb : NativeBehavior) (w : World) (h : HandleState)
    (p : String) : World × HandleState × Except PyError Bool :=
  match ensure_connected nb w h with
  | (w1, h1, some e) => (w1, h1, Except.error e)
  | (w1, h1, none) =>
    if nb.hasRust then
      match h1.rust_instance with
      | some id =>
        let sp := sanitize_file_path p
        if sp = "" then (w1, h1, Except.ok false)
        else
          let w2 : World :=
            { w1 with trace := w1.trace ++ [NEvent.saveCall id sp] }
          if nb.saveOk id sp then (w2, h1, Except.ok true)
          else (w2, h1, Except.ok false)
      | none => (w1, h1, Except.error PyError.runtimeError)
    else (w1, h1, Except.error PyError.runtimeError)

/-! ## Concrete native behaviours and scenario states used by the theorems -/

/-- A native engine on which every call succeeds; `execute` returns an empty
result dictionary. -/
def nbOk : NativeBehavior :=
  { hasRust := true, allocOk := fun _ => true, initOk := fun _ => true,
    closeOk := fun _ => true, execRes := fun _ _ => Except.ok ⟨none, none, none⟩,
    loadFileOk := fun _ _ => true, loadDataOk := fun _ => true,
    saveOk := fun _ _ => true }

/-- A native engine whose allocation succeeds but whose `init()` fails. -/
def nbInitFail : NativeBehavior :=
  { nbOk with initOk := fun _ => false }

/-- A native engine whose native `close()` raises. -/
def nbCloseFail : NativeBehavior :=
  { nbOk with closeOk := fun _ => false }

/-- The empty world: no instance allocated yet, empty trace. -/
def w0 : World := ⟨0, []⟩

/-- A fresh handle with the default constructor arguments
(`db_path=None, thread_count=1, cache_size=1000, enable_logging=False`). -/
def h0 : HandleState := mkHandle none 1 1000 false

/-- A handle connected to native instance 0. -/
def hConn : HandleState := ⟨some 0, true, none, 1, 1000, false⟩

/-! ## Helper lemmas about the path sanitizer -/

theorem filter_filter_fuse (p q : Char → Bool) :
    ∀ l : List Char, (l.filter p).filter q = l.filter (fun c => p c && q c)
  | [] => rfl
  | c :: t => by
    cases hp : p c <;> cases hq : q c <;>
      simp [List.filter_cons, hp, hq, filter_filter_fuse p q t]

theorem stripDangerous_eq_filter (l : List Char) :
    stripDangerous l =
      l.filter (fun c => !(c = '\'' || c = '"' || c = ';' || c = '\n' || c = '\r')) := by
  unfold stripDangerous
  rw [filter_filter_fuse, filter_filter_fuse, filter_filter_fuse, filter_filter_fuse]
  apply List.filter_congr
  intro c _
  simp [decide_not, Bool.not_or, Bool.and_assoc]

theorem removeDotDot_cons_of_ne {c : Char} (h : c ≠ '.') (r : List Char) :
    removeDotDot (c :: r) = c :: removeDotDot r := by
  cases r <;> simp [removeDotDot, h]

/-- Whatever `removeDotDot` outputs contains no two consecutive dots: Python's
`replace('..', '')` removes every non-overlapping occurrence in one pass, and
an emitted dot is always followed by a non-dot. -/
theorem hasDotDot_removeDotDot : ∀ l : List Char, hasDotDot (removeDotDot l) = false
  | [] => rfl
  | [c] => by simp [removeDotDot, hasDotDot]
  | c :: c2 :: r => by
    by_cases hdots : c = '.' ∧ c2 = '.'
    · rw [show removeDotDot (c :: c2 :: r) = removeDotDot r by
        simp [removeDotDot, hdots.1, hdots.2]]
      exact hasDotDot_removeDotDot r
    · have hne : (c = '.' && c2 = '.') = false := by
        rcases Decidable.not_and_iff_or_not.mp hdots with h | h <;> simp [h]
      have hstep : removeDotDot (c :: c2 :: r) = c :: removeDotDot (c2 :: r) := by
        simp [removeDotDot, hne]
      have hrec := hasDotDot_removeDotDot (c2 :: r)
      rw [hstep]
      by_cases hc : c = '.'
      · have hc2 : c2 ≠ '.' := by
          intro h2; exact hdots ⟨hc, h2⟩
        rw [removeDotDot_cons_of_ne hc2] at hrec ⊢
        simp [hasDotDot, hrec, hc2]
      · cases htail : removeDotDot (c2 :: r) with
        | nil => simp [hasDotDot]
        | cons d t =>
          rw [htail] at hrec
          simp [hasDotDot, hrec, hc]

/-- `removeDotDot` only removes characters, it never introduces any. -/
theorem mem_removeDotDot : ∀ (l : List Char) (c : Char), c ∈ removeDotDot l → c ∈ l
  | [], _, h => by simp [removeDotDot] at h
  | [d], c, h => by
    simp [removeDotDot] at h
    simp [h]
  | d :: d2 :: r, c, h => by
    by_cases hdots : d = '.' ∧ d2 = '.'
    · rw [show removeDotDot (d :: d2 :: r) = removeDotDot r by
        simp [removeDotDot, hdots.1, hdots.2]] at h
      have := mem_removeDotDot r c h
      simp [this]
    · have hne : (d = '.' && d2 = '.') = false := by
        rcases Decidable.not_and_iff_or_not.mp hdots with h' | h' <;> simp [h']
      rw [show removeDotDot (d :: d2 :: r) = d :: removeDotDot (d2 :: r) by
        simp [removeDotDot, hne]] at h
      rcases List.mem_cons.mp h with h' | h'
      · simp [h']
      · have := mem_removeDotDot (d2 :: r) c h'
        simp [List.mem_cons] at this ⊢
        tauto

/-- On a list without two consecutive dots, `removeDotDot` is the identity. -/
theorem removeDotDot_of_not_hasDotDot :
    ∀ l : List Char, hasDotDot l = false → removeDotDot l = l
  | [], _ => rfl
  | [_], _ => by simp [removeDotDot]
  | c :: c2 :: r, h => by
    simp only [hasDotDot, Bool.or_eq_false_iff] at h
    rw [show removeDotDot (c :: c2 :: r) = c :: removeDotDot (c2 :: r) by
      simp [removeDotDot, h.1]]
    rw [removeDotDot_of_not_hasDotDot (c2 :: r) h.2]

/-! ## The claims -/

/-- C1: `_format_insert_data` (python/minigu.py:363), evaluated at
`[{label: "Person", name: "Alice", age: 30}]`, returns
`(Person {name: 'Alice', age: '30'})` — parenthesised `(<label> {...})`
syntax with every value single-quoted, including the integer — and its output
contains no occurrence of `INSERT :` at all, contradicting both the claimed
output `INSERT :Person { name: 'Alice', age: 30 }` and the claimed
one-`INSERT :`-clause-per-record shape that the repository's own tests
(`final_validation_test.py`, `test_fixed_format.py`, `comprehensive_test.py`)
check for. -/
theorem format_insert_data_divergence :
    format_insert_data c1_input = "(Person \x7bname: 'Alice', age: '30'\x7d)"
    ∧ pyIn "INSERT :" (format_insert_data c1_input) = false
    ∧ format_insert_data c1_input ≠ "INSERT :Person \x7b name: 'Alice', age: 30 \x7d" := by
  refine ⟨by decide, by decide, by decide⟩

/-- C2 counterexample: the message `"bad syntax here"` contains the keyword
`syntax` (case-insensitive), yet `_handle_exception` classifies it as
Execution, not Syntax — the code's first rule requires `syntax` to co-occur
with `error` (or `invalid`), so the claim's rule 1 (`syntax` alone suffices)
is false on the code. -/
theorem classify_contains_keyword_counterexample :
    pyIn "syntax" (lowerStr "bad syntax here") = true
    ∧ handle_exception "bad syntax here" = PyError.queryExecutionError
    ∧ handle_exception "bad syntax here" ≠ PyError.querySyntaxError := by
  refine ⟨by decide, by decide, by decide⟩

/-- C2 amended: `_handle_exception` is a total, first-match-wins,
case-insensitive classifier evaluated in the fixed order (1) ("syntax" and
"error") or "unexpected" or ("invalid" and "syntax") → Syntax; (2) "timeout"
→ Timeout; (3) "transaction"/"txn"/"commit"/"rollback" → Transaction;
(4) "not implemented"/"not yet implemented" → NotImplemented; (5) otherwise
Execution; in particular `"syntax error near timeout"` classifies as Syntax
because rule 1 is checked before the timeout rule. -/
theorem classify_amended_holds :
    (∀ m : String, handle_exception m = classify_amended m)
    ∧ handle_exception "syntax error near timeout" = PyError.querySyntaxError := by
  refine ⟨fun m => rfl, by decide⟩

/-- C6 counterexample: Python's `str.isalnum()` is Unicode-aware, so
`_sanitize_graph_name` keeps the non-ASCII letter `é` whereas the claimed
`[A-Za-z0-9_]` filter would drop it. -/
theorem sanitize_graph_name_unicode_counterexample :
    sanitize_graph_name "é" = "é"
    ∧ keep_ascii_ident "é" = ""
    ∧ sanitize_graph_name "é" ≠ keep_ascii_ident "é" := by
  refine ⟨by decide, by decide, by decide⟩

/-- C6 amended: `_sanitize_graph_name` keeps exactly the characters that are
Python-alphanumeric or underscore; restricted to ASCII input this is exactly
the claimed `[A-Za-z0-9_]` filter (dropping, not replacing, every other
character), and both quoted examples hold. -/
theorem sanitize_graph_name_amended_holds :
    (∀ s : String, (∀ c ∈ s.data, c.toNat < 128) →
      sanitize_graph_name s = keep_ascii_ident s)
    ∧ sanitize_graph_name "test_graph'; DROP TABLE users; --" = "test_graphDROPTABLEusers"
    ∧ sanitize_graph_name "'; --" = "" := by
  refine ⟨?_, by decide, by decide⟩
  intro s hs
  unfold sanitize_graph_name keep_ascii_ident
  refine congrArg String.mk (List.filter_congr ?_)
  intro c hc
  have h128 := hs c hc
  simp [pyIsAlnum, h128, Bool.or_assoc]

/-- C6 witness: the amended characterization applied to the ASCII string
`"a'b c"`. -/
theorem sanitize_graph_name_amended_holds_witness :
    sanitize_graph_name "a'b c" = "abc" := by
  have h := sanitize_graph_name_amended_holds.1 "a'b c" (by decide)
  rw [h]; decide

/-- C7: `_sanitize_file_path` equals the spec's two-stage description — first
delete every occurrence of `'`, `"`, `;`, newline and carriage return, then
remove occurrences of the two-character sequence `..` in one left-to-right
pass — and both quoted examples hold. -/
theorem sanitize_file_path_matches_spec :
    (∀ p : String, sanitize_file_path p = sanitize_file_path_spec p)
    ∧ sanitize_file_path "test';.csv" = "test.csv"
    ∧ sanitize_file_path "../test.csv" = "/test.csv" := by
  refine ⟨?_, by decide, by decide⟩
  intro p
  unfold sanitize_file_path sanitize_file_path_spec
  exact congrArg String.mk (congrArg removeDotDot (stripDangerous_eq_filter p.data))

/-- C10: the output of `_sanitize_file_path` never contains the substring
`..` (Python's `replace` removes every non-overlapping occurrence in its
single pass, so even `"....//"` leaves no residual `..`) nor any of the five
stripped characters, and the sanitizer is idempotent. -/
theorem sanitize_file_path_safe_and_idempotent :
    (∀ p : String,
      hasDotDot (sanitize_file_path p).data = false
      ∧ ((sanitize_file_path p).data.any
          (fun c => c = '\'' || c = '"' || c = ';' || c = '\n' || c = '\r')) = false
      ∧ sanitize_file_path (sanitize_file_path p) = sanitize_file_path p)
    ∧ sanitize_file_path "....//" = "//" := by
  refine ⟨?_, by decide⟩
  intro p
  refine ⟨hasDotDot_removeDotDot _, ?_, ?_⟩
  · refine List.any_eq_false.mpr ?_
    intro c hc
    have hmem := mem_removeDotDot _ c hc
    rw [stripDangerous_eq_filter] at hmem
    have := (List.mem_filter.mp hmem).2
    simpa using this
  · show (⟨removeDotDot (stripDangerous (removeDotDot (stripDangerous p.data)))⟩ : String) =
      ⟨removeDotDot (stripDangerous p.data)⟩
    have hstrip : stripDangerous (removeDotDot (stripDangerous p.data)) =
        removeDotDot (stripDangerous p.data) := by
      rw [stripDangerous_eq_filter]
      refine List.filter_eq_self.mpr ?_
      intro c hc
      have hmem := mem_removeDotDot _ c hc
      rw [stripDangerous_eq_filter] at hmem
      have := (List.mem_filter.mp hmem).2
      simpa using this
    rw [hstrip, removeDotDot_of_not_hasDotDot _ (hasDotDot_removeDotDot _)]

/-- Does a native `execute` result represent success? -/
def execSucceeds : Except String QDict → Bool
  | Except.ok _ => true
  | Except.error _ => false

/-- The C3 trace, step 1: a fresh handle connects (native allocation and
`init()` both succeed). -/
def c3_afterConnect : World × HandleState × Option PyError :=
  ensure_connected nbOk w0 h0

/-- The C3 trace, step 2: `close()` on the connected handle. -/
def c3_afterClose : World × HandleState × Option PyError :=
  py_close nbOk c3_afterConnect.1 c3_afterConnect.2.1

/-- The C3 trace, step 3: `execute` on the closed handle. -/
def c3_afterExec : World × HandleState × Except PyError QueryResult :=
  minigu_execute nbOk c3_afterClose.1 c3_afterClose.2.1 "MATCH (n) RETURN n"

/-- C3: a closed handle is not terminal.  After connect–close, a plain
`execute` on the same handle raises no Connection error: `_ensure_connected`
silently re-allocates a brand-new native instance (id 1), marks the handle
connected again, and runs the query — the trace shows the post-close
`PyMiniGU()` allocation, `init()` and `execute` native calls, contradicting
"no subsequent operation on that handle re-allocates the native instance or
reaches the native engine". -/
theorem closed_handle_reconnects :
    c3_afterConnect.2.2 = none
    ∧ c3_afterClose.2.1.is_connected = false
    ∧ c3_afterExec.2.2 = Except.ok ⟨[], [], []⟩
    ∧ c3_afterExec.2.1.is_connected = true
    ∧ c3_afterExec.2.1.rust_instance = some 1
    ∧ c3_afterExec.1.trace =
        [NEvent.allocCall 0, NEvent.initCall 0, NEvent.closeCall 0,
         NEvent.allocCall 1, NEvent.initCall 1,
         NEvent.execCall 1 "MATCH (n) RETURN n"] := by
  refine ⟨rfl, rfl, rfl, rfl, rfl, rfl⟩

/-- C4 counterexample: `close()` does not swallow release failures.  On a
connected handle whose native `close()` raises, the wrapper's `close()`
propagates the raw native exception (there is no try/except around the
release) and — since `self.is_connected = False` is skipped — even leaves the
handle marked connected. -/
theorem close_release_failure_propagates :
    (py_close nbCloseFail ⟨1, []⟩ hConn).2.2 = some PyError.nativeError
    ∧ (py_close nbCloseFail ⟨1, []⟩ hConn).2.1.is_connected = true := by
  refine ⟨rfl, rfl⟩

/-- C4 amended: `close()` on a handle without a native instance reference is
a safe no-op (no native call, never raises); when an instance reference is
present and the native release returns normally, `close()` sets
`is_connected` to `False` and never raises, and calling it a second time
again returns normally — but re-invokes the native release, since the
instance reference is never cleared; when the native release raises, the
failure propagates to the caller (it is not swallowed) and `is_connected` is
left unchanged.  `AsyncMiniGU.close` behaves identically. -/
theorem close_amended_holds (nb : NativeBehavior) (w : World) (h : HandleState)
    (i : Nat) :
    (h.rust_instance = none →
      py_close nb w h = (w, { h with is_connected := false }, none))
    ∧ (h.rust_instance = some i → nb.closeOk i = true →
      py_close nb w h =
        ({ w with trace := w.trace ++ [NEvent.closeCall i] },
         { h with is_connected := false }, none)
      ∧ py_close nb ({ w with trace := w.trace ++ [NEvent.closeCall i] })
          ({ h with is_connected := false }) =
        ({ w with trace := (w.trace ++ [NEvent.closeCall i]) ++ [NEvent.closeCall i] },
         { h with is_connected := false }, none))
    ∧ (h.rust_instance = some i → nb.closeOk i = false →
      py_close nb w h =
        ({ w with trace := w.trace ++ [NEvent.closeCall i] }, h,
         some PyError.nativeError))
    ∧ async_close nb w h = py_close nb w h := by
  refine ⟨?_, ?_, ?_, rfl⟩
  · intro hnone
    simp [py_close, hnone]
  · intro hinst hok
    constructor
    · simp [py_close, hinst, hok]
    · simp [py_close, hinst, hok]
  · intro hinst hbad
    simp [py_close, hinst, hbad]

/-- C4 witness: closing a handle connected to instance 0 under a native
engine whose release succeeds. -/
theorem close_amended_holds_witness :
    py_close nbOk ⟨1, []⟩ hConn =
      (⟨1, [NEvent.closeCall 0]⟩, ⟨some 0, false, none, 1, 1000, false⟩, none) := by
  have h := (close_amended_holds nbOk ⟨1, []⟩ hConn 0).2.1 rfl rfl
  exact h.1

/-- C5 counterexample: when `PyMiniGU()` succeeds but `init()` fails,
`_connect` raises a Connection error and leaves `is_connected` `False` — but
`self._rust_instance` already holds the half-configured native instance, so
partial state *is* retained, contradicting "no partial or half-configured
state retained". -/
theorem connect_failure_retains_partial_instance :
    (ensure_connected nbInitFail w0 h0).2.2 = some PyError.connectionError
    ∧ (ensure_connected nbInitFail w0 h0).2.1.is_connected = false
    ∧ (ensure_connected nbInitFail w0 h0).2.1.rust_instance = some 0
    ∧ (ensure_connected nbInitFail w0 h0).2.1.rust_instance ≠ none := by
  refine ⟨rfl, rfl, rfl, by decide⟩

/-- C5 amended: on a disconnected handle with bindings present,
`ensure_connected` (a) on allocation success followed by `init()` failure
raises Connection and leaves `is_connected` `False`, but retains the
partially-initialized instance reference; (b) on success allocates one
instance, records exactly the `PyMiniGU()` and `init()` native calls — no
call carrying `thread_count`, `cache_size` or `enable_logging`, which stay
untouched on the handle and are never applied to the native instance — and
transitions to Connected; (c) on allocation failure raises Connection and
changes nothing on the handle; and (d) after a failed attempt, a subsequent
call attempts a fresh allocation rather than short-circuiting on a cached
failure. -/
theorem ensure_connected_amended_holds (nb : NativeBehavior) (w : World)
    (h : HandleState) (hr : nb.hasRust = true) (hc : h.is_connected = false) :
    (nb.allocOk w.nextId = true → nb.initOk w.nextId = false →
      ensure_connected nb w h =
        ({ nextId := w.nextId + 1,
           trace := w.trace ++ [NEvent.allocCall w.nextId, NEvent.initCall w.nextId] },
         { h with rust_instance := some w.nextId }, some PyError.connectionError))
    ∧ (nb.allocOk w.nextId = true → nb.initOk w.nextId = true →
      ensure_connected nb w h =
        ({ nextId := w.nextId + 1,
           trace := w.trace ++ [NEvent.allocCall w.nextId, NEvent.initCall w.nextId] },
         { h with rust_instance := some w.nextId, is_connected := true }, none))
    ∧ (nb.allocOk w.nextId = false →
      ensure_connected nb w h =
        ({ w with trace := w.trace ++ [NEvent.allocFail w.nextId] }, h,
         some PyError.connectionError))
    ∧ (nb.allocOk w.nextId = true → nb.initOk w.nextId = false →
      nb.allocOk (w.nextId + 1) = true → nb.initOk (w.nextId + 1) = true →
      (ensure_connected nb (ensure_connected nb w h).1
          (ensure_connected nb w h).2.1).2.1.is_connected = true
      ∧ (ensure_connected nb (ensure_connected nb w h).1
          (ensure_connected nb w h).2.1).2.1.rust_instance = some (w.nextId + 1)) := by
  refine ⟨?_, ?_, ?_, ?_⟩
  · intro ha hi
    simp [ensure_connected, py_connect, hc, hr, ha, hi]
  · intro ha hi
    simp [ensure_connected, py_connect, hc, hr, ha, hi]
  · intro ha
    simp [ensure_connected, py_connect, hc, hr, ha]
  · intro ha hi ha2 hi2
    have hfail : ensure_connected nb w h =
        ({ nextId := w.nextId + 1,
           trace := w.trace ++ [NEvent.allocCall w.nextId, NEvent.initCall w.nextId] },
         { h with rust_instance := some w.nextId }, some PyError.connectionError) := by
      simp [ensure_connected, py_connect, hc, hr, ha, hi]
    rw [hfail]
    constructor
    · simp [ensure_connected, py_connect, hc, hr, ha2, hi2]
    · simp [ensure_connected, py_connect, hc, hr, ha2, hi2]

/-- C5 witness: a successful first connect of a fresh handle. -/
theorem ensure_connected_amended_holds_witness :
    ensure_connected nbOk w0 h0 =
      (⟨1, [NEvent.allocCall 0, NEvent.initCall 0]⟩,
       ⟨some 0, true, none, 1, 1000, false⟩, none) := by
  have h := (ensure_connected_amended_holds nbOk w0 h0 rfl rfl).2.1 rfl rfl
  exact h

/-- C8: the blocking `MiniGU.execute` and the suspending `AsyncMiniGU.execute`
are observationally equal — same resulting world, handle state and
result/typed error — for every query and every native-engine behaviour,
because both consist of the shared `_execute_internal` (connection handling
and error classification included) followed by the same `QueryResult`
wrapping. -/
theorem execute_blocking_eq_suspending (nb : NativeBehavior) (w : World)
    (h : HandleState) (q : String) :
    minigu_execute nb w h q = async_minigu_execute nb w h q := rfl

/-- C9: once a handle is connected (with the native bindings present), the
facade methods `load`, `save` and `create_graph` never propagate an
exception: each returns `Except.ok` of a Boolean that is `True` exactly when
the underlying native call succeeds, and `False` on any failure — including a
native load/save/create failure and a path or graph name sanitizing to the
empty string (the internally raised Data/Graph error is caught inside the
method). -/
theorem facade_bool_methods_never_raise (nb : NativeBehavior) (w : World)
    (h : HandleState) (i : Nat) (p : String) (rs : List Record) (name : String)
    (hr : nb.hasRust = true) (hc : h.is_connected = true)
    (hi : h.rust_instance = some i) :
    (py_load nb w h (LoadInput.filePath p)).2.2 =
      Except.ok (if sanitize_file_path p = "" then false
        else nb.loadFileOk i (sanitize_file_path p))
    ∧ (py_load nb w h (LoadInput.records rs)).2.2 = Except.ok (nb.loadDataOk i)
    ∧ (py_save nb w h p).2.2 =
      Except.ok (if sanitize_file_path p = "" then false
        else nb.saveOk i (sanitize_file_path p))
    ∧ (create_graph nb w h name).2.2 =
      Except.ok (if sanitize_graph_name name = "" then false
        else execSucceeds (nb.execRes i
          ("CALL create_test_graph('" ++ sanitize_graph_name name ++ "')"))) := by
  refine ⟨?_, ?_, ?_, ?_⟩
  · by_cases hsp : sanitize_file_path p = ""
    · simp [py_load, ensure_connected, hc, hr, hi, hsp]
    · by_cases hl : nb.loadFileOk i (sanitize_file_path p) <;>
        simp [py_load, ensure_connected, hc, hr, hi, hsp, hl]
  · by_cases hl : nb.loadDataOk i <;>
      simp [py_load, ensure_connected, hc, hr, hi, hl]
  · by_cases hsp : sanitize_file_path p = ""
    · simp [py_save, ensure_connected, hc, hr, hi, hsp]
    · by_cases hl : nb.saveOk i (sanitize_file_path p) <;>
        simp [py_save, ensure_connected, hc, hr, hi, hsp, hl]
  · by_cases hsn : sanitize_graph_name name = ""
    · simp [create_graph, create_graph_internal, ensure_connected, hc, hr, hi, hsn]
    · cases hq : nb.execRes i ("CALL create_test_graph('" ++ sanitize_graph_name name ++ "')") with
      | ok d =>
        simp [create_graph, create_graph_internal, execute_internal,
          ensure_connected, hc, hr, hi, hsn, hq, execSucceeds]
      | error m =>
        simp [create_graph, create_graph_internal, execute_internal,
          ensure_connected, hc, hr, hi, hsn, hq, execSucceeds]

/-- C9 witness: on a connected handle with an all-succeeding native engine,
`load`, `save` and `create_graph` return `True` without raising. -/
theorem facade_bool_methods_never_raise_witness :
    (py_load nbOk ⟨1, []⟩ hConn (LoadInput.filePath "data.csv")).2.2 = Except.ok true
    ∧ (py_save nbOk ⟨1, []⟩ hConn "data.csv").2.2 = Except.ok true
    ∧ (create_graph nbOk ⟨1, []⟩ hConn "g1").2.2 = Except.ok true := by
  have h := facade_bool_methods_never_raise nbOk ⟨1, []⟩ hConn 0 "data.csv" []
    "g1" rfl rfl rfl
  exact ⟨h.1.trans rfl, h.2.2.1.trans rfl, h.2.2.2.trans rfl⟩

end MiniGu
